import Mathlib

/-!
Verification of the task-lifecycle orchestrator of the `hive` repository.

The Rust sources are embedded shallowly: pure functions become Lean
functions, in-place mutation becomes explicit state passing, and every
result of an external subprocess (git, gh, the planner/executor children)
or of the file system is an explicit input, collected in an `Env` record.
Timestamps (`chrono::DateTime<Utc>`) are abstracted as `Nat` instants;
`Utc::now()` becomes an explicit `now : Nat` argument.
-/

set_option maxRecDepth 100000

namespace Hive

/-- Substring containment, the Lean counterpart of Rust's `str::contains`
with a string pattern: `sub` occurs contiguously inside `hay`. -/
def strContains (hay sub : String) : Bool :=
  decide (sub.toList <:+: hay.toList)

/-- Task status, from `src/task/task.rs` (`enum TaskStatus`). -/
inductive TaskStatus where
  | todo
  | planning
  | planReview
  | inProgress
  | review
  | done
  | cancelled
deriving Repr, DecidableEq

/-- Display name of a status, from `TaskStatus::display_name`. -/
def TaskStatus.display_name : TaskStatus → String
  | .todo => "Todo"
  | .planning => "Planning"
  | .planReview => "Plan Review"
  | .inProgress => "In Progress"
  | .review => "Review"
  | .done => "Done"
  | .cancelled => "Cancelled"

/-- Kanban column of a status, from `TaskStatus::to_column_index`. -/
def TaskStatus.to_column_index : TaskStatus → Option Nat
  | .todo => some 0
  | .planning | .planReview | .inProgress => some 1
  | .review => some 2
  | .done => some 3
  | .cancelled => none

/-- The task entity, from `struct Task` in `src/task/task.rs`.  The
`pr_url` field is declared by the spec's data model and is read and
written by `src/main.rs` (`create_pr_for_task`, `create_pr`); the copy of
`task.rs` in this snapshot omits it, so it is carried here as the
`Option String` the spec and `main.rs` use it as. -/
structure Task where
  id : String
  title : String
  description : String
  status : TaskStatus
  planner : Option String
  executor : Option String
  agent : Option String
  branch : Option String
  worktree : Option String
  created_at : Nat
  started_at : Option Nat
  completed_at : Option Nat
  output_log : Option String
  pr_url : Option String
deriving Repr, DecidableEq

/-- Status change, from `Task::set_status`: sets the status, stamps
`started_at` the first time the status becomes Planning or InProgress,
and stamps `completed_at` on every transition to Done or Cancelled. -/
def Task.set_status (t : Task) (status : TaskStatus) (now : Nat) : Task :=
  let t := { t with status := status }
  match status with
  | .planning | .inProgress =>
      if t.started_at = none then { t with started_at := some now } else t
  | .done | .cancelled => { t with completed_at := some now }
  | _ => t

/-- Planner assignment, from `Task::assign_planner`. -/
def Task.assign_planner (t : Task) (planner : String) : Task :=
  { t with planner := some planner }

/-- Executor assignment, from `Task::assign_executor`: also fills the
backward-compatibility `agent` field and the branch. -/
def Task.assign_executor (t : Task) (executor branch : String) : Task :=
  { t with executor := some executor, agent := some executor, branch := some branch }

/-- Forward-transition check, from `Task::can_advance`. -/
def Task.can_advance (t : Task) : Except String TaskStatus :=
  match t.status with
  | .todo =>
      if t.planner = none then .error "Please assign a planner first"
      else .ok .planning
  | .planning => .ok .planReview
  | .planReview =>
      if t.executor = none then .error "Please assign an executor first"
      else .ok .inProgress
  | .inProgress => .ok .review
  | .review => .ok .done
  | .done | .cancelled => .error "Cannot advance further"

/-- Retreat mapping, from `Task::retreat_target`. -/
def Task.retreat_target (t : Task) : Option TaskStatus :=
  match t.status with
  | .todo | .cancelled => none
  | .planning => some .todo
  | .planReview => some .planning
  | .inProgress => some .planning
  | .review => some .inProgress
  | .done => some .review

/-- Helper: `set_status` touches only `status`, `started_at` and
`completed_at`; every other field is preserved. -/
theorem Task.set_status_frame (t : Task) (s : TaskStatus) (now : Nat) :
    (t.set_status s now).id = t.id ∧
    (t.set_status s now).title = t.title ∧
    (t.set_status s now).description = t.description ∧
    (t.set_status s now).planner = t.planner ∧
    (t.set_status s now).executor = t.executor ∧
    (t.set_status s now).agent = t.agent ∧
    (t.set_status s now).branch = t.branch ∧
    (t.set_status s now).worktree = t.worktree ∧
    (t.set_status s now).created_at = t.created_at ∧
    (t.set_status s now).output_log = t.output_log ∧
    (t.set_status s now).pr_url = t.pr_url := by
  cases s <;> simp [Task.set_status] <;> split <;> simp

/-- Helper: `set_status` installs exactly the requested status. -/
theorem Task.status_set_status (t : Task) (s : TaskStatus) (now : Nat) :
    (t.set_status s now).status = s := by
  cases s <;> simp [Task.set_status] <;> split <;> simp

/-- Validation outcome, from `struct ValidationResult` in
`src/git/validator.rs`. -/
structure ValidationResult where
  is_valid : Bool
  warnings : List String
  errors : List String
deriving Repr, DecidableEq

/-- The all-clear result, from `ValidationResult::ok`. -/
def ValidationResult.allOk : ValidationResult :=
  { is_valid := true, warnings := [], errors := [] }

/-- Appends a warning, from `ValidationResult::with_warning` (keeps
`is_valid`). -/
def ValidationResult.with_warning (r : ValidationResult) (msg : String) : ValidationResult :=
  { r with warnings := r.warnings ++ [msg] }

/-- Appends an error and invalidates, from `ValidationResult::with_error`. -/
def ValidationResult.with_error (r : ValidationResult) (msg : String) : ValidationResult :=
  { r with is_valid := false, errors := r.errors ++ [msg] }

/-- Implementation-completion check, from
`WorktreeValidator::validate_implementation`.  The two git probes
`has_new_commits(base)` and `has_changes()` are subprocess queries; their
boolean outcomes are the two arguments. -/
def validate_implementation (has_commits has_uncommitted : Bool) : ValidationResult :=
  let result := ValidationResult.allOk
  if !has_commits && !has_uncommitted then
    result.with_error "No changes found. Implementation may not be complete."
  else
    let result := if has_uncommitted then
      result.with_warning "There are uncommitted changes." else result
    result

/-- Agent status, from `enum AgentStatus` in `src/agent/runner.rs`. -/
inductive AgentStatus where
  | idle
  | running
  | completed
  | failed (reason : String)
deriving Repr, DecidableEq

/-- Rust `ExitStatus`, abstracted to its `code()`: `some c` for a normal
exit with code `c`, `none` for a signal-terminated child.  `success()` is
`code() == Some(0)`. -/
def ExitStatus : Type := Option Int

/-- Debug formatting of `Option<i32>`, as produced by `format!("{:?}", ..)`
in `check_task_completion`. -/
def reprOptInt : Option Int → String
  | some n => "Some(" ++ toString n ++ ")"
  | none => "None"

/-- Outcome of the non-blocking `child.try_wait()` call: the child exited
with the given status, is still running, or the reap itself failed. -/
inductive ReapOutcome where
  | exited (status : Option Int)
  | stillRunning
  | reapErr (msg : String)
deriving Repr, DecidableEq

/-- A live-agent record, from `struct RunningAgent` in
`src/agent/runner.rs`; the opaque `Child` handle is kept only as presence
(`Option Unit`). -/
structure RunningAgent where
  task_id : String
  status : AgentStatus
  output_lines : List String
  child : Option Unit
deriving Repr, DecidableEq

/-- In-place update of the first list element satisfying `p`, the shape of
Rust's `iter_mut().find(p)` followed by mutation. -/
def updateFirst (p : α → Bool) (f : α → α) : List α → List α
  | [] => []
  | x :: xs => if p x then f x :: xs else x :: updateFirst p f xs

/-- The per-agent body of `AgentRunner::check_task_completion`: reap the
child if the record is Running and a handle is present. -/
def tryReap (a : RunningAgent) (reap : ReapOutcome) : RunningAgent :=
  if a.status = .running then
    match a.child with
    | some _ =>
        match reap with
        | .exited code =>
            { a with
              status := if code = some 0 then .completed
                        else .failed ("Exit code: " ++ reprOptInt code),
              child := none }
        | .stillRunning => a
        | .reapErr e => { a with status := .failed e, child := none }
    | none => a
  else a

/-- Non-blocking completion check, from
`AgentRunner::check_task_completion`: the agent map is a list keyed by
`task_id`; `reap` is the outcome `try_wait` would report for this child.
Returns the updated map and the post-reap status (`none` for an unknown
id). -/
def check_task_completion (agents : List RunningAgent) (task_id : String)
    (reap : ReapOutcome) : List RunningAgent × Option AgentStatus :=
  match agents.find? (fun a => a.task_id == task_id) with
  | none => (agents, none)
  | some a =>
      (updateFirst (fun a => a.task_id == task_id) (fun a => tryReap a reap) agents,
       some (tryReap a reap).status)

/-- Plans directory used by `PlanManager::new(hive_dir)` with the
`.hive` directory `App::new` passes in. -/
def plansDir : String := ".hive/plans"

/-- Plan file path, from `PlanManager::plan_path`:
`<plans-dir>/<task-id>.md`. -/
def plan_path (task_id : String) : String :=
  plansDir ++ "/" ++ task_id ++ ".md"

/-- Planning prompt, from `PlanManager::create_planning_prompt` in
`src/agent/orchestrator.rs`.  The source function takes only the title
and the description; the template below is its format string verbatim. -/
def create_planning_prompt (task_title task_description : String) : String :=
  "Please create an implementation plan for the following task.\n\n" ++
  "## Task\n" ++
  "**Title**: " ++ task_title ++ "\n" ++
  "**Description**: " ++ task_description ++ "\n\n" ++
  "## Output Format\n" ++
  "Please output in Markdown format as follows:\n\n" ++
  "```markdown\n" ++
  "# Implementation Plan: [Task Title]\n\n" ++
  "## Overview\n" ++
  "[Task purpose and goals]\n\n" ++
  "## Implementation Steps\n" ++
  "1. [Step 1]\n" ++
  "   - Details\n" ++
  "   - Affected files\n\n" ++
  "2. [Step 2]\n" ++
  "   ...\n\n" ++
  "## Scope of Impact\n" ++
  "- New files:\n" ++
  "- Modified files:\n\n" ++
  "## Test Strategy\n" ++
  "- [Test 1]\n" ++
  "- [Test 2]\n\n" ++
  "## Notes and Risks\n" ++
  "- [Note 1]\n" ++
  "```\n"

/-- Contents of the plans directory: task id to plan-file content.  This
is the file-system input of `PlanManager::plan_file_exists` and
`PlanManager::load_plan`. -/
def PlanFiles : Type := String → Option String

/-- Plan-file existence, from `PlanManager::plan_file_exists`. -/
def plan_file_exists (plans : PlanFiles) (task_id : String) : Bool :=
  (plans task_id).isSome

/-- Plan loading, from `PlanManager::load_plan`. -/
def load_plan (plans : PlanFiles) (task_id : String) : Except String String :=
  match plans task_id with
  | some content => .ok content
  | none => .error ("Failed to read plan: " ++ plan_path task_id)

/-- The execution-prompt format string of
`PlanManager::create_execution_prompt`, around the plan body. -/
def execution_prompt_text (plan : String) : String :=
  "Please implement the code according to the following implementation plan.\n\n"
    ++ plan ++
    "\n\n---\nFollow the plan and proceed with implementation step by step.\n" ++
    "After completing each step, verify it works before proceeding to the next step.\n"

/-- Execution prompt, from `PlanManager::create_execution_prompt`:
includes the plan body verbatim; fails when the plan file is missing. -/
def create_execution_prompt (plans : PlanFiles) (task_id : String) :
    Except String String :=
  match load_plan plans task_id with
  | .error e => .error e
  | .ok plan => .ok (execution_prompt_text plan)

/-- Outcomes of the external world consulted by the coordinator: the plans
directory, the per-worktree git probes used by `handle_agent_completed`
(already `unwrap_or(false)`-defaulted, as in the source), and the results
of the `git push` and `gh pr create` subprocesses in
`create_pr_for_task`. -/
structure Env where
  plans : PlanFiles
  hasNewCommits : String → Bool
  hasChanges : String → Bool
  pushResult : Except String Unit
  ghResult : Except String String

/-- Coordinator state, the slice of `struct App` in `src/main.rs` the
event handlers touch: the authoritative task list, a trace of the task
collections handed to `store.save` (most recent first), the agents
spawned through `start_agent` as `(task_id, agent_name, prompt)` triples,
the status line, and the configured default executor. -/
structure AppState where
  tasks : List Task
  saved : List (List Task)
  spawns : List (String × String × String)
  status_message : Option String
  default_executor : String

/-- Revert applied to the failed task, from the `AgentEvent::Failed` arm
of `App::process_agent_events`: Planning drops the planner and returns to
Todo, InProgress drops the executor and returns to PlanReview, any other
status is re-set unchanged. -/
def revertTask (t : Task) (now : Nat) : Task :=
  match t.status with
  | .planning => ({ t with planner := none }).set_status .todo now
  | .inProgress => ({ t with executor := none }).set_status .planReview now
  | _ => t.set_status t.status now

/-- The `(new_status, cleared)` pair the `Failed` arm computes for the
status-line message. -/
def revertInfo : TaskStatus → TaskStatus × String
  | .planning => (.todo, "planner")
  | .inProgress => (.planReview, "executor")
  | st => (st, "")

/-- Handling of one `Failed{task_id, error}` event, from the
`AgentEvent::Failed` arm of `App::process_agent_events`: find the task,
revert it, persist, and surface the failure message.  A successful
`store.save` is modelled by appending the collection to the trace. -/
def handle_failed (s : AppState) (task_id error : String) (now : Nat) : AppState :=
  match s.tasks.find? (fun t => t.id == task_id) with
  | none => s
  | some t =>
      let tasks' := updateFirst (fun t => t.id == task_id) (fun t => revertTask t now) s.tasks
      let info := revertInfo t.status
      { s with
        tasks := tasks',
        saved := tasks' :: s.saved,
        status_message := some ("❌ Agent failed on '" ++ t.title ++ "': " ++ error ++
          " (reverted to " ++ info.1.display_name ++ ", " ++ info.2 ++ " cleared)") }

/-- Executor start, from `App::start_executor_for_task`: requires the
task and its worktree, builds the execution prompt from the plan (failing
if the plan is missing), assigns the executor, sets InProgress, persists
and spawns the agent. -/
def start_executor_for_task (s : AppState) (env : Env)
    (task_id executor_name : String) (now : Nat) : Except String AppState :=
  match s.tasks.find? (fun t => t.id == task_id) with
  | none => .error "Task not found"
  | some t =>
      match t.worktree with
      | none => .error "No worktree"
      | some _ =>
          match create_execution_prompt env.plans task_id with
          | .error e => .error e
          | .ok prompt =>
              let branch := t.branch.getD ""
              let tasks' := updateFirst (fun t => t.id == task_id)
                (fun t => (t.assign_executor executor_name branch).set_status .inProgress now)
                s.tasks
              .ok { s with
                tasks := tasks',
                saved := tasks' :: s.saved,
                spawns := (task_id, executor_name, prompt) :: s.spawns,
                status_message := some ("🔨 Executor '" ++ executor_name ++
                  "' started for '" ++ t.title ++ "'") }

/-- Pull-request creation, from `App::create_pr_for_task`: requires the
task, its branch and its worktree; pushes the branch, invokes `gh pr
create`, and on success stores the returned URL in the task's `pr_url`
and persists. -/
def create_pr_for_task (s : AppState) (env : Env) (task_id : String) :
    AppState × Except String String :=
  match s.tasks.find? (fun t => t.id == task_id) with
  | none => (s, .error "Task not found")
  | some t =>
      match t.branch, t.worktree with
      | none, _ => (s, .error "No branch for this task")
      | some _, none => (s, .error "No worktree for this task")
      | some _, some _ =>
          match env.pushResult with
          | .error e => (s, .error e)
          | .ok _ =>
              match env.ghResult with
              | .error e => (s, .error e)
              | .ok url =>
                  let tasks' := updateFirst (fun t => t.id == task_id)
                    (fun t => { t with pr_url := some url }) s.tasks
                  ({ s with tasks := tasks', saved := tasks' :: s.saved }, .ok url)

/-- Handling of one `Completed{task_id}` event, from
`App::handle_agent_completed`: dispatch on the task's current status.
Planning: missing plan file leaves everything unchanged but warns;
otherwise set PlanReview, persist, and auto-start the default executor.
InProgress: no commits and no uncommitted changes leaves everything
unchanged but warns; otherwise set Review, persist, and auto-create a PR
when commits exist.  Other statuses are ignored. -/
def handle_agent_completed (s : AppState) (env : Env) (task_id : String)
    (now : Nat) : Except String AppState :=
  match s.tasks.find? (fun t => t.id == task_id) with
  | none => .ok s
  | some t =>
      match t.status with
      | .planning =>
          if plan_file_exists env.plans task_id = false then
            let msg := "⚠️ Planner finished but no plan file found for '" ++ t.title ++ "'"
            .ok { s with status_message := some msg }
          else
            let tasks' := updateFirst (fun t => t.id == task_id)
              (fun t => t.set_status .planReview now) s.tasks
            let s' := { s with tasks := tasks', saved := tasks' :: s.saved }
            start_executor_for_task s' env task_id s.default_executor now
      | .inProgress =>
          match t.worktree with
          | some worktree_path =>
              let has_commits := env.hasNewCommits worktree_path
              let has_changes := env.hasChanges worktree_path
              if !has_commits && !has_changes then
                let msg := "⚠️ Executor finished but no changes found for '" ++ t.title ++ "'"
                .ok { s with status_message := some msg }
              else
                let tasks' := updateFirst (fun t => t.id == task_id)
                  (fun t => t.set_status .review now) s.tasks
                let s' := { s with tasks := tasks', saved := tasks' :: s.saved }
                if has_commits then
                  match create_pr_for_task s' env task_id with
                  | (s'', .ok url) =>
                      let msg := "✅ Implementation completed & PR created: " ++ url
                      .ok { s'' with status_message := some msg }
                  | (s'', .error e) =>
                      let msg := "✅ Implementation completed: " ++ t.title ++ " (PR failed: " ++ e ++ ")"
                      .ok { s'' with status_message := some msg }
                else
                  let msg := "✅ Implementation completed (uncommitted): " ++ t.title
                  .ok { s' with status_message := some msg }
          | none =>
              let msg := "⚠️ No worktree found for '" ++ t.title ++ "'"
              .ok { s with status_message := some msg }
      | _ => .ok s

/-- JSON documents, the value level of `serde_json`.  `num` carries the
exact instant of a serialised timestamp: chrono's ISO-8601 rendering of a
`DateTime<Utc>` is injective and parses back to the same instant, so the
string layer is abstracted to the instant itself. -/
inductive Json where
  | null
  | str (s : String)
  | num (n : Nat)
  | arr (elems : List Json)
  | obj (fields : List (String × Json))
deriving Repr

/-- Snake-case serialisation of `TaskStatus`
(`#[serde(rename_all = "snake_case")]`). -/
def statusToString : TaskStatus → String
  | .todo => "todo"
  | .planning => "planning"
  | .planReview => "plan_review"
  | .inProgress => "in_progress"
  | .review => "review"
  | .done => "done"
  | .cancelled => "cancelled"

/-- Snake-case deserialisation of `TaskStatus`. -/
def statusFromString : String → Option TaskStatus
  | "todo" => some .todo
  | "planning" => some .planning
  | "plan_review" => some .planReview
  | "in_progress" => some .inProgress
  | "review" => some .review
  | "done" => some .done
  | "cancelled" => some .cancelled
  | _ => none

/-- Serde encoding of `Option<String>`: `null` or the string. -/
def optStrJson : Option String → Json
  | none => .null
  | some s => .str s

/-- Serde decoding of `Option<String>`. -/
def jOptStr : Json → Option (Option String)
  | .null => some none
  | .str s => some (some s)
  | _ => none

/-- Serde encoding of an optional timestamp. -/
def optNatJson : Option Nat → Json
  | none => .null
  | some n => .num n

/-- Serde decoding of an optional timestamp. -/
def jOptNat : Json → Option (Option Nat)
  | .null => some none
  | .num n => some (some n)
  | _ => none

/-- Field lookup in a JSON object, as serde's by-name field matching. -/
def jlook : List (String × Json) → String → Option Json
  | [], _ => none
  | (k, v) :: rest, key => if k = key then some v else jlook rest key

/-- Serde serialisation of one `Task`: an object holding every field of
the struct, statuses in snake_case, optionals as `null` or the value. -/
def taskToJson (t : Task) : Json :=
  .obj [("id", .str t.id),
        ("title", .str t.title),
        ("description", .str t.description),
        ("status", .str (statusToString t.status)),
        ("planner", optStrJson t.planner),
        ("executor", optStrJson t.executor),
        ("agent", optStrJson t.agent),
        ("branch", optStrJson t.branch),
        ("worktree", optStrJson t.worktree),
        ("created_at", .num t.created_at),
        ("started_at", optNatJson t.started_at),
        ("completed_at", optNatJson t.completed_at),
        ("output_log", optStrJson t.output_log),
        ("pr_url", optStrJson t.pr_url)]

/-- Serde deserialisation of one `Task` from a JSON object. -/
def taskFromJson : Json → Option Task
  | .obj fs => do
      let id ← jlook fs "id" >>= fun j => match j with | .str s => some s | _ => none
      let title ← jlook fs "title" >>= fun j => match j with | .str s => some s | _ => none
      let description ← jlook fs "description" >>=
        fun j => match j with | .str s => some s | _ => none
      let status ← jlook fs "status" >>=
        fun j => match j with | .str s => statusFromString s | _ => none
      let planner ← jlook fs "planner" >>= jOptStr
      let executor ← jlook fs "executor" >>= jOptStr
      let agent ← jlook fs "agent" >>= jOptStr
      let branch ← jlook fs "branch" >>= jOptStr
      let worktree ← jlook fs "worktree" >>= jOptStr
      let created_at ← jlook fs "created_at" >>=
        fun j => match j with | .num n => some n | _ => none
      let started_at ← jlook fs "started_at" >>= jOptNat
      let completed_at ← jlook fs "completed_at" >>= jOptNat
      let output_log ← jlook fs "output_log" >>= jOptStr
      let pr_url ← jlook fs "pr_url" >>= jOptStr
      pure { id := id, title := title, description := description, status := status,
             planner := planner, executor := executor, agent := agent,
             branch := branch, worktree := worktree, created_at := created_at,
             started_at := started_at, completed_at := completed_at,
             output_log := output_log, pr_url := pr_url }
  | _ => none

/-- Serde deserialisation of a task list from a JSON array, element by
element in order. -/
def tasksFromList : List Json → Option (List Task)
  | [] => some []
  | j :: rest => do
      let t ← taskFromJson j
      let ts ← tasksFromList rest
      pure (t :: ts)

/-- Full-file write, from `TaskStore::save`: the serialised task array is
the new content of `tasks.json` (pretty-printing is invertible, so the
file content is kept at the JSON-value level). -/
def TaskStore.save (tasks : List Task) : Json :=
  .arr (tasks.map taskToJson)

/-- Full-file read, from `TaskStore::load`: an absent file yields the
empty list, unparsable content is an error. -/
def TaskStore.load (file : Option Json) : Except String (List Task) :=
  match file with
  | none => .ok []
  | some j =>
      match j with
      | .arr elems =>
          match tasksFromList elems with
          | some ts => .ok ts
          | none => .error "Failed to parse tasks.json"
      | _ => .error "Failed to parse tasks.json"

/-- Helper: per-status serialisation round-trip. -/
theorem statusFromString_statusToString (st : TaskStatus) :
    statusFromString (statusToString st) = some st := by
  cases st <;> rfl

/-- Helper: `Option String` serde round-trip. -/
theorem jOptStr_optStrJson (o : Option String) : jOptStr (optStrJson o) = some o := by
  cases o <;> rfl

/-- Helper: optional-timestamp serde round-trip. -/
theorem jOptNat_optNatJson (o : Option Nat) : jOptNat (optNatJson o) = some o := by
  cases o <;> rfl

/-- Helper: per-task serde round-trip. -/
theorem taskFromJson_taskToJson (t : Task) : taskFromJson (taskToJson t) = some t := by
  obtain ⟨id, title, description, status, planner, executor, agent, branch, worktree,
    created_at, started_at, completed_at, output_log, pr_url⟩ := t
  simp [taskToJson, taskFromJson, jlook, jOptStr_optStrJson, jOptNat_optNatJson,
    statusFromString_statusToString, Option.bind]

/-- Helper: element-wise serde round-trip for task arrays. -/
theorem tasksFromList_map (ts : List Task) :
    tasksFromList (ts.map taskToJson) = some ts := by
  induction ts with
  | nil => rfl
  | cons t ts ih => simp [tasksFromList, taskFromJson_taskToJson, ih]

@[simp] theorem set_status_id (t : Task) (s : TaskStatus) (now : Nat) :
    (t.set_status s now).id = t.id := by
  cases s <;> simp [Task.set_status] <;> split <;> simp

@[simp] theorem set_status_title (t : Task) (s : TaskStatus) (now : Nat) :
    (t.set_status s now).title = t.title := by
  cases s <;> simp [Task.set_status] <;> split <;> simp

@[simp] theorem set_status_description (t : Task) (s : TaskStatus) (now : Nat) :
    (t.set_status s now).description = t.description := by
  cases s <;> simp [Task.set_status] <;> split <;> simp

@[simp] theorem set_status_planner (t : Task) (s : TaskStatus) (now : Nat) :
    (t.set_status s now).planner = t.planner := by
  cases s <;> simp [Task.set_status] <;> split <;> simp

@[simp] theorem set_status_executor (t : Task) (s : TaskStatus) (now : Nat) :
    (t.set_status s now).executor = t.executor := by
  cases s <;> simp [Task.set_status] <;> split <;> simp

@[simp] theorem set_status_agent (t : Task) (s : TaskStatus) (now : Nat) :
    (t.set_status s now).agent = t.agent := by
  cases s <;> simp [Task.set_status] <;> split <;> simp

@[simp] theorem set_status_branch (t : Task) (s : TaskStatus) (now : Nat) :
    (t.set_status s now).branch = t.branch := by
  cases s <;> simp [Task.set_status] <;> split <;> simp

@[simp] theorem set_status_worktree (t : Task) (s : TaskStatus) (now : Nat) :
    (t.set_status s now).worktree = t.worktree := by
  cases s <;> simp [Task.set_status] <;> split <;> simp

@[simp] theorem set_status_created_at (t : Task) (s : TaskStatus) (now : Nat) :
    (t.set_status s now).created_at = t.created_at := by
  cases s <;> simp [Task.set_status] <;> split <;> simp

@[simp] theorem set_status_output_log (t : Task) (s : TaskStatus) (now : Nat) :
    (t.set_status s now).output_log = t.output_log := by
  cases s <;> simp [Task.set_status] <;> split <;> simp

@[simp] theorem set_status_pr_url (t : Task) (s : TaskStatus) (now : Nat) :
    (t.set_status s now).pr_url = t.pr_url := by
  cases s <;> simp [Task.set_status] <;> split <;> simp

@[simp] theorem set_status_status (t : Task) (s : TaskStatus) (now : Nat) :
    (t.set_status s now).status = s := by
  cases s <;> simp [Task.set_status] <;> split <;> simp

/-- Helper: a `started_at` stamp survives every later `set_status`. -/
theorem set_status_started_at_of_some (t : Task) (s : TaskStatus) (now x : Nat)
    (h : t.started_at = some x) : (t.set_status s now).started_at = some x := by
  cases s <;> simp [Task.set_status, h]

@[simp] theorem assign_executor_id (t : Task) (e b : String) :
    (t.assign_executor e b).id = t.id := rfl

@[simp] theorem assign_executor_executor (t : Task) (e b : String) :
    (t.assign_executor e b).executor = some e := rfl

@[simp] theorem assign_executor_worktree (t : Task) (e b : String) :
    (t.assign_executor e b).worktree = t.worktree := rfl

@[simp] theorem assign_executor_pr_url (t : Task) (e b : String) :
    (t.assign_executor e b).pr_url = t.pr_url := rfl

@[simp] theorem revertTask_id (t : Task) (now : Nat) :
    (revertTask t now).id = t.id := by
  unfold revertTask; split <;> simp

@[simp] theorem revertTask_branch (t : Task) (now : Nat) :
    (revertTask t now).branch = t.branch := by
  unfold revertTask; split <;> simp

@[simp] theorem revertTask_worktree (t : Task) (now : Nat) :
    (revertTask t now).worktree = t.worktree := by
  unfold revertTask; split <;> simp

@[simp] theorem revertTask_pr_url (t : Task) (now : Nat) :
    (revertTask t now).pr_url = t.pr_url := by
  unfold revertTask; split <;> simp

/-- Helper: `updateFirst` rewrites the first match in place, so a
`find?` with the same predicate sees the rewritten element, provided the
rewrite keeps the predicate true. -/
theorem updateFirst_find? (p : α → Bool) (f : α → α) (l : List α) (x : α)
    (h : l.find? p = some x) (hf : p (f x) = true) :
    (updateFirst p f l).find? p = some (f x) := by
  induction l with
  | nil => simp at h
  | cons a l ih =>
      by_cases hp : p a
      · rw [List.find?_cons_of_pos _ hp] at h
        cases h
        simp [updateFirst, hp, List.find?_cons_of_pos _ hf]
      · rw [List.find?_cons_of_neg _ (by simpa using hp)] at h
        simp [updateFirst, hp, List.find?_cons_of_neg _ (by simpa using hp), ih h]

/-- Helper: a projection every rewrite preserves is preserved across the
whole list by `updateFirst`. -/
theorem map_updateFirst (g : α → β) (p : α → Bool) (f : α → α)
    (hg : ∀ a, g (f a) = g a) (l : List α) :
    (updateFirst p f l).map g = l.map g := by
  induction l with
  | nil => rfl
  | cons a l ih =>
      by_cases hp : p a
      · simp [updateFirst, hp, hg]
      · simp [updateFirst, hp, ih]

/-- A minimal concrete task used to instantiate witnesses. -/
def mkTask (id : String) (st : TaskStatus) : Task :=
  { id := id, title := "T", description := "D", status := st, planner := none,
    executor := none, agent := none, branch := none, worktree := none,
    created_at := 0, started_at := none, completed_at := none,
    output_log := none, pr_url := none }

/-- A minimal concrete coordinator state used to instantiate witnesses. -/
def mkState (tasks : List Task) : AppState :=
  { tasks := tasks, saved := [], spawns := [], status_message := none,
    default_executor := "claude" }

/-- A minimal concrete environment used to instantiate witnesses. -/
def mkEnv : Env :=
  { plans := fun _ => none, hasNewCommits := fun _ => false,
    hasChanges := fun _ => false, pushResult := .ok (),
    ghResult := .error "gh failed" }

/-- C8: `retreat_target()` returns `none` for Todo and Cancelled,
Todo for Planning, Planning for PlanReview, Planning for InProgress
(deliberately skipping PlanReview), InProgress for Review, and Review
for Done. -/
theorem C8_retreat_target (t : Task) :
    t.retreat_target =
      (match t.status with
       | .todo => none
       | .cancelled => none
       | .planning => some .todo
       | .planReview => some .planning
       | .inProgress => some .planning
       | .review => some .inProgress
       | .done => some .review) := by
  unfold Task.retreat_target
  cases t.status <;> rfl

/-- C2: `can_advance()` returns Planning from Todo iff a planner is set
(otherwise an error mentioning "planner"), PlanReview from Planning
unconditionally, InProgress from PlanReview iff an executor is set
(otherwise an error), Review from InProgress, Done from Review, and an
error from Done or Cancelled. -/
theorem C2_can_advance (t : Task) :
    (t.status = .todo → t.planner ≠ none → t.can_advance = .ok .planning) ∧
    (t.status = .todo → t.planner = none →
      ∃ msg, t.can_advance = .error msg ∧ strContains msg "planner" = true) ∧
    (t.status = .planning → t.can_advance = .ok .planReview) ∧
    (t.status = .planReview → t.executor ≠ none → t.can_advance = .ok .inProgress) ∧
    (t.status = .planReview → t.executor = none →
      ∃ msg, t.can_advance = .error msg) ∧
    (t.status = .inProgress → t.can_advance = .ok .review) ∧
    (t.status = .review → t.can_advance = .ok .done) ∧
    (t.status = .done ∨ t.status = .cancelled →
      ∃ msg, t.can_advance = .error msg) := by
  refine ⟨?_, ?_, ?_, ?_, ?_, ?_, ?_, ?_⟩
  · intro h hp; simp [Task.can_advance, h, hp]
  · intro h hp
    exact ⟨"Please assign a planner first", by simp [Task.can_advance, h, hp], by decide⟩
  · intro h; simp [Task.can_advance, h]
  · intro h he; simp [Task.can_advance, h, he]
  · intro h he
    exact ⟨"Please assign an executor first", by simp [Task.can_advance, h, he]⟩
  · intro h; simp [Task.can_advance, h]
  · intro h; simp [Task.can_advance, h]
  · rintro (h | h) <;>
      exact ⟨"Cannot advance further", by simp [Task.can_advance, h]⟩

/-- Witness for C2 at concrete tasks: a Todo task with no planner is
refused with a message containing "planner", and a Todo task with a
planner advances to Planning. -/
theorem C2_can_advance_witness :
    (∃ msg, (mkTask "task-1" .todo).can_advance = .error msg ∧
      strContains msg "planner" = true) ∧
    ({ mkTask "task-2" .todo with planner := some "gemini" } : Task).can_advance =
      .ok .planning := by
  constructor
  · exact (C2_can_advance (mkTask "task-1" .todo)).2.1 rfl rfl
  · exact (C2_can_advance _).1 rfl (by simp [mkTask])

/-- C10: `set_status` mutates only `status`, `started_at` and
`completed_at`: the ten other fields are unchanged by every call, and a
`started_at` stamp, once set, is never modified or cleared by any later
`set_status`. -/
theorem C10_set_status_frame_props (t : Task) (s : TaskStatus) (now : Nat) :
    (t.set_status s now).id = t.id ∧
    (t.set_status s now).title = t.title ∧
    (t.set_status s now).description = t.description ∧
    (t.set_status s now).planner = t.planner ∧
    (t.set_status s now).executor = t.executor ∧
    (t.set_status s now).agent = t.agent ∧
    (t.set_status s now).branch = t.branch ∧
    (t.set_status s now).worktree = t.worktree ∧
    (t.set_status s now).output_log = t.output_log ∧
    (t.set_status s now).created_at = t.created_at ∧
    (t.set_status s now).pr_url = t.pr_url ∧
    (∀ x, t.started_at = some x → (t.set_status s now).started_at = some x) := by
  refine ⟨by simp, by simp, by simp, by simp, by simp, by simp, by simp, by simp,
    by simp, by simp, by simp, ?_⟩
  intro x hx
  exact set_status_started_at_of_some t s now x hx

/-- Witness for C10 at a concrete task: a `started_at` of 7 survives a
later transition to Done. -/
theorem C10_witness :
    (({ mkTask "t" .planning with started_at := some 7 } : Task).set_status
      .done 9).started_at = some 7 :=
  (C10_set_status_frame_props { mkTask "t" .planning with started_at := some 7 }
    .done 9).2.2.2.2.2.2.2.2.2.2.2 7 rfl

/-- Counterexample to C4 as stated: with new commits AND uncommitted
changes present, the claim predicts an ok result with no warnings, but
`validate_implementation` still emits the uncommitted-changes warning. -/
theorem C4_claim_counterexample :
    (validate_implementation true true).warnings ≠ [] ∧
    (validate_implementation true true).is_valid = true := by
  constructor <;> decide

/-- C4 (amended): error (valid = false, message containing "No changes
found") exactly when there are neither new commits nor uncommitted
changes; a warning exactly when there are uncommitted changes, whether or
not new commits exist; ok with no warnings and no errors exactly when new
commits exist and there are no uncommitted changes. -/
theorem C4_validate_implementation (has_commits has_uncommitted : Bool) :
    validate_implementation has_commits has_uncommitted =
      (if !has_commits && !has_uncommitted then
        { is_valid := false, warnings := [],
          errors := ["No changes found. Implementation may not be complete."] }
      else if has_uncommitted then
        { is_valid := true, warnings := ["There are uncommitted changes."],
          errors := [] }
      else { is_valid := true, warnings := [], errors := [] }) ∧
    strContains "No changes found. Implementation may not be complete."
      "No changes found" = true := by
  cases has_commits <;> cases has_uncommitted <;> exact ⟨rfl, by decide⟩

/-- C9: persisting a task list and loading it back returns the same list,
element by element and in order. -/
theorem C9_store_round_trip (tasks : List Task) :
    TaskStore.load (some (TaskStore.save tasks)) = .ok tasks := by
  simp [TaskStore.load, TaskStore.save, tasksFromList_map]

/-- Helper: reaping never changes the record's task id. -/
theorem tryReap_task_id (a : RunningAgent) (r : ReapOutcome) :
    (tryReap a r).task_id = a.task_id := by
  unfold tryReap
  split
  · cases hc : a.child with
    | none => simp
    | some u => cases r <;> simp
  · rfl

/-- A one-agent runner map used to instantiate the C5 theorems: a
Running record for task `t1` with a live child handle. -/
def c5agents : List RunningAgent :=
  [{ task_id := "t1", status := .running, output_lines := [], child := some () }]

/-- Counterexample to C5 as stated: on exit code 1 the failure reason is
the Debug rendering `"Exit code: Some(1)"` (from `format!("{:?}",
status.code())`), not `"Exit code: 1"`. -/
theorem C5_claim_counterexample :
    (check_task_completion c5agents "t1" (.exited (some 1))).2 =
      some (.failed "Exit code: Some(1)") ∧
    (check_task_completion c5agents "t1" (.exited (some 1))).2 ≠
      some (.failed "Exit code: 1") := by
  constructor <;> decide

/-- C5 (amended): `check_task_completion` returns `none` for an unknown
id; for a known Running agent with a live child it reaps a finished
child, setting Completed on exit code 0 and `Failed("Exit code:
Some(<code>)")` (Debug form of the optional code; `"Exit code: None"` for
a signal death) on any other exit, clears the child handle, and returns
the post-reap status; a still-running child yields Running. -/
theorem C5_check_task_completion (agents : List RunningAgent) (task_id : String)
    (reap : ReapOutcome) :
    (agents.find? (fun a => a.task_id == task_id) = none →
      check_task_completion agents task_id reap = (agents, none)) ∧
    (∀ a, agents.find? (fun a => a.task_id == task_id) = some a →
      a.status = .running → a.child.isSome →
      (∃ a', (check_task_completion agents task_id reap).1.find?
          (fun a => a.task_id == task_id) = some a' ∧
        (check_task_completion agents task_id reap).2 = some a'.status) ∧
      (reap = .exited (some 0) →
        (check_task_completion agents task_id reap).2 = some .completed) ∧
      (∀ code, code ≠ some 0 → reap = .exited code →
        (check_task_completion agents task_id reap).2 =
          some (.failed ("Exit code: " ++ reprOptInt code))) ∧
      (∀ code, reap = .exited code →
        ∃ a', (check_task_completion agents task_id reap).1.find?
            (fun a => a.task_id == task_id) = some a' ∧ a'.child = none) ∧
      (reap = .stillRunning →
        (check_task_completion agents task_id reap).2 = some .running)) := by
  constructor
  · intro h
    simp [check_task_completion, h]
  · intro a ha hrun hchild
    obtain ⟨u, hu⟩ := Option.isSome_iff_exists.mp hchild
    have hid : (a.task_id == task_id) = true := by
      have h := List.find?_some ha
      simpa using h
    have hpres : ((tryReap a reap).task_id == task_id) = true := by
      rw [tryReap_task_id]; exact hid
    have hfind := updateFirst_find? (fun a => a.task_id == task_id)
      (fun a => tryReap a reap) agents a ha hpres
    refine ⟨⟨tryReap a reap, ?_, ?_⟩, ?_, ?_, ?_, ?_⟩
    · simp [check_task_completion, ha, hfind]
    · simp [check_task_completion, ha]
    · intro h
      subst h
      simp [check_task_completion, ha, tryReap, hrun, hu]
    · intro code hcode h
      subst h
      simp [check_task_completion, ha, tryReap, hrun, hu, hcode]
    · intro code h
      subst h
      refine ⟨tryReap a (.exited code), by simp [check_task_completion, ha, hfind], ?_⟩
      simp [tryReap, hrun, hu]
    · intro h
      subst h
      simp [check_task_completion, ha, tryReap, hrun, hu]

/-- Witness for C5 at concrete inputs: exit 0 reaps to Completed, a
still-running child reports Running, and an unknown id yields `none`. -/
theorem C5_witness :
    (check_task_completion c5agents "t1" (.exited (some 0))).2 = some .completed ∧
    (check_task_completion c5agents "t1" .stillRunning).2 = some .running ∧
    check_task_completion c5agents "missing" .stillRunning = (c5agents, none) := by
  refine ⟨?_, ?_, ?_⟩
  · exact (((C5_check_task_completion c5agents "t1" (.exited (some 0))).2
      _ rfl rfl (by decide)).2.1) rfl
  · exact (((C5_check_task_completion c5agents "t1" .stillRunning).2
      _ rfl rfl (by decide)).2.2.2.2) rfl
  · exact (C5_check_task_completion c5agents "missing" .stillRunning).1 rfl

/-- C7 at the failing input (id `task-1`, title `Add login`, description
`Implement OAuth`): the planning prompt contains the title and the
description but neither the plan file path `.hive/plans/task-1.md` nor
the task id at all — the 2-argument `create_planning_prompt` in
`orchestrator.rs` never receives the id, while its caller in `main.rs`
passes `(task_id, title, description)` expecting a prompt "with plan
file path". -/
theorem C7_planning_prompt_missing_path :
    strContains (create_planning_prompt "Add login" "Implement OAuth")
      "Add login" = true ∧
    strContains (create_planning_prompt "Add login" "Implement OAuth")
      "Implement OAuth" = true ∧
    strContains (create_planning_prompt "Add login" "Implement OAuth")
      (plan_path "task-1") = false ∧
    strContains (create_planning_prompt "Add login" "Implement OAuth")
      "task-1" = false := by
  refine ⟨by decide, by decide, by decide, by decide⟩

/-- C1: draining a `Failed{task_id, error}` event reverts the named task
by its current status — Planning becomes Todo with the planner cleared,
InProgress becomes PlanReview with the executor cleared, any other status
keeps its status and assignments — and the branch and worktree fields
are retained in every case. -/
theorem C1_failed_revert (s : AppState) (task_id error : String) (now : Nat)
    (t : Task) (h : s.tasks.find? (fun u => u.id == task_id) = some t) :
    ∃ t', (handle_failed s task_id error now).tasks.find?
        (fun u => u.id == task_id) = some t' ∧
      (t.status = .planning →
        t'.status = .todo ∧ t'.planner = none ∧ t'.executor = t.executor) ∧
      (t.status = .inProgress →
        t'.status = .planReview ∧ t'.executor = none ∧ t'.planner = t.planner) ∧
      (t.status ≠ .planning → t.status ≠ .inProgress →
        t'.status = t.status ∧ t'.planner = t.planner ∧ t'.executor = t.executor) ∧
      t'.branch = t.branch ∧ t'.worktree = t.worktree := by
  have hid : (t.id == task_id) = true := by
    have h' := List.find?_some h
    simpa using h'
  have hpres : ((revertTask t now).id == task_id) = true := by
    rw [revertTask_id]; exact hid
  have hfind := updateFirst_find? (fun u => u.id == task_id)
    (fun u => revertTask u now) s.tasks t h hpres
  refine ⟨revertTask t now, ?_, ?_, ?_, ?_, by simp, by simp⟩
  · simp only [handle_failed, h]
    exact hfind
  · intro hst
    simp [revertTask, hst]
  · intro hst
    simp [revertTask, hst]
  · intro h1 h2
    cases hst : t.status <;> simp_all [revertTask]

/-- A concrete Planning task with planner, branch and worktree set, used
by the C1 witness. -/
def c1task : Task :=
  { mkTask "t1" .planning with planner := some "gemini", branch := some "hive/t1", worktree := some "w" }

/-- Witness for C1 at a concrete state: a failed planner on a Planning
task reverts it to Todo, clears the planner, and keeps the branch. -/
theorem C1_failed_revert_witness :
    ∃ t', (handle_failed (mkState [c1task]) "t1" "boom" 5).tasks.find?
        (fun u => u.id == "t1") = some t' ∧
      t'.status = .todo ∧ t'.planner = none ∧ t'.branch = some "hive/t1" := by
  obtain ⟨t', h1, h2, _, _, h5, _⟩ :=
    C1_failed_revert (mkState [c1task]) "t1" "boom" 5 c1task (by rfl)
  exact ⟨t', h1, (h2 rfl).1, (h2 rfl).2.1, by rw [h5]; rfl⟩

/-- Helper: with the task present, a worktree set and the plan file
present, `start_executor_for_task` succeeds and its effect is exactly:
assign the executor, set InProgress, persist, spawn, report. -/
theorem start_executor_for_task_ok (s : AppState) (env : Env)
    (task_id e : String) (now : Nat) (t : Task)
    (h : s.tasks.find? (fun u => u.id == task_id) = some t)
    (w : String) (hw : t.worktree = some w)
    (content : String) (hp : env.plans task_id = some content) :
    start_executor_for_task s env task_id e now = .ok
      { s with
        tasks := updateFirst (fun u => u.id == task_id)
          (fun u => (u.assign_executor e (t.branch.getD "")).set_status .inProgress now) s.tasks,
        saved := updateFirst (fun u => u.id == task_id)
          (fun u => (u.assign_executor e (t.branch.getD "")).set_status .inProgress now) s.tasks :: s.saved,
        spawns := (task_id, e, execution_prompt_text content) :: s.spawns,
        status_message := some ("🔨 Executor '" ++ e ++ "' started for '" ++ t.title ++ "'") } := by
  simp only [start_executor_for_task, h, hw, create_execution_prompt, load_plan, hp]

/-- C3: on a `Completed` event for a task in Planning — if the plan file
is missing, the state is unchanged except for a surfaced warning (status
stays Planning, nothing persisted, no executor started); if the plan file
exists, the task is set to PlanReview, that collection is persisted, and
the default executor is started automatically for the task (assigning it
and moving the task on to InProgress). -/
theorem C3_completed_planning (s : AppState) (env : Env) (task_id : String)
    (now : Nat) (t : Task)
    (h : s.tasks.find? (fun u => u.id == task_id) = some t)
    (hst : t.status = .planning) :
    (env.plans task_id = none →
      handle_agent_completed s env task_id now =
        .ok { s with status_message := some ("⚠️ Planner finished but no plan file found for '" ++ t.title ++ "'") }) ∧
    (∀ w content, t.worktree = some w → env.plans task_id = some content →
      ∃ s', handle_agent_completed s env task_id now = .ok s' ∧
        (∃ snap, snap ∈ s'.saved ∧ ∃ t₁, snap.find? (fun u => u.id == task_id) = some t₁ ∧
          t₁.status = .planReview) ∧
        (∃ prompt, (task_id, s.default_executor, prompt) ∈ s'.spawns) ∧
        (∃ t₂, s'.tasks.find? (fun u => u.id == task_id) = some t₂ ∧
          t₂.executor = some s.default_executor ∧ t₂.status = .inProgress)) := by
  have hid : (t.id == task_id) = true := by simpa using List.find?_some h
  constructor
  · intro hp
    simp [handle_agent_completed, h, hst, plan_file_exists, hp]
  · intro w content hw hp
    have hpres1 : ((t.set_status .planReview now).id == task_id) = true := by
      simp [hid]
    have h1 := updateFirst_find? (fun u => u.id == task_id)
      (fun u => u.set_status .planReview now) s.tasks t h hpres1
    have hw1 : (t.set_status .planReview now).worktree = some w := by simp [hw]
    have hrun := start_executor_for_task_ok
      { s with
        tasks := updateFirst (fun u => u.id == task_id)
          (fun u => u.set_status .planReview now) s.tasks,
        saved := updateFirst (fun u => u.id == task_id)
          (fun u => u.set_status .planReview now) s.tasks :: s.saved }
      env task_id s.default_executor now (t.set_status .planReview now)
      h1 w hw1 content hp
    have hmain : handle_agent_completed s env task_id now =
        start_executor_for_task
          { s with
            tasks := updateFirst (fun u => u.id == task_id)
              (fun u => u.set_status .planReview now) s.tasks,
            saved := updateFirst (fun u => u.id == task_id)
              (fun u => u.set_status .planReview now) s.tasks :: s.saved }
          env task_id s.default_executor now := by
      simp [handle_agent_completed, h, hst, plan_file_exists, hp]
    rw [hmain, hrun]
    have hpres2 : ((((t.set_status .planReview now).assign_executor s.default_executor
        ((t.set_status .planReview now).branch.getD "")).set_status .inProgress now).id
        == task_id) = true := by
      simp [Task.assign_executor, hid]
    have h2 := updateFirst_find? (fun u => u.id == task_id)
      (fun u => (u.assign_executor s.default_executor
        ((t.set_status .planReview now).branch.getD "")).set_status .inProgress now)
      (updateFirst (fun u => u.id == task_id)
        (fun u => u.set_status .planReview now) s.tasks)
      (t.set_status .planReview now) h1 hpres2
    refine ⟨_, rfl, ⟨updateFirst (fun u => u.id == task_id)
        (fun u => u.set_status .planReview now) s.tasks, ?_, ?_⟩, ?_, ?_⟩
    · exact List.mem_cons_of_mem _ (List.mem_cons_self _ _)
    · exact ⟨t.set_status .planReview now, h1, by simp⟩
    · exact ⟨execution_prompt_text content, List.mem_cons_self _ _⟩
    · exact ⟨_, h2, by simp [Task.assign_executor], by simp⟩

/-- A concrete Planning task with planner, branch and worktree set, used
by the C3 witness. -/
def c3task : Task :=
  { mkTask "t1" .planning with planner := some "gemini", branch := some "hive/t1", worktree := some "w" }

/-- An environment whose plans directory holds a plan for task `t1`,
used by the C3 witness. -/
def c3env : Env :=
  { mkEnv with plans := fun id => if id = "t1" then some "PLAN" else none }

/-- Witness for C3 at a concrete state: with no plan file the handler
only surfaces the warning; with a plan file it persists a PlanReview
snapshot, spawns the default executor and assigns it. -/
theorem C3_completed_planning_witness :
    (handle_agent_completed (mkState [c3task]) mkEnv "t1" 0 =
      .ok { mkState [c3task] with status_message := some ("⚠️ Planner finished but no plan file found for '" ++ c3task.title ++ "'") }) ∧
    (∃ s', handle_agent_completed (mkState [c3task]) c3env "t1" 0 = .ok s' ∧
      (∃ snap, snap ∈ s'.saved ∧ ∃ t₁, snap.find? (fun u => u.id == "t1") = some t₁ ∧
        t₁.status = .planReview) ∧
      (∃ prompt, ("t1", (mkState [c3task]).default_executor, prompt) ∈ s'.spawns) ∧
      (∃ t₂, s'.tasks.find? (fun u => u.id == "t1") = some t₂ ∧
        t₂.executor = some (mkState [c3task]).default_executor ∧
        t₂.status = .inProgress)) := by
  constructor
  · exact (C3_completed_planning (mkState [c3task]) mkEnv "t1" 0 c3task
      (by rfl) (by rfl)).1 rfl
  · exact (C3_completed_planning (mkState [c3task]) c3env "t1" 0 c3task
      (by rfl) (by rfl)).2 "w" "PLAN" rfl rfl

/-- Helper: the `Failed` revert path never touches any task's `pr_url`. -/
theorem handle_failed_pr_url (s : AppState) (task_id error : String) (now : Nat) :
    (handle_failed s task_id error now).tasks.map Task.pr_url =
      s.tasks.map Task.pr_url := by
  unfold handle_failed
  cases hf : s.tasks.find? (fun u => u.id == task_id) with
  | none => rfl
  | some t =>
      simpa using map_updateFirst Task.pr_url (fun u => u.id == task_id)
        (fun u => revertTask u now) (fun a => revertTask_pr_url a now) s.tasks

/-- Helper: a successful executor start never touches any task's
`pr_url`. -/
theorem start_executor_for_task_pr_url (s s' : AppState) (env : Env)
    (task_id e : String) (now : Nat)
    (h : start_executor_for_task s env task_id e now = .ok s') :
    s'.tasks.map Task.pr_url = s.tasks.map Task.pr_url := by
  unfold start_executor_for_task at h
  cases hf : s.tasks.find? (fun u => u.id == task_id) with
  | none => rw [hf] at h; simp at h
  | some t =>
      rw [hf] at h
      dsimp only at h
      cases hw : t.worktree with
      | none => rw [hw] at h; simp at h
      | some w =>
          rw [hw] at h
          cases hcp : create_execution_prompt env.plans task_id with
          | error msg => rw [hcp] at h; simp at h
          | ok prompt =>
              rw [hcp] at h
              injection h with h2
              subst h2
              simpa using map_updateFirst Task.pr_url (fun u => u.id == task_id)
                (fun u => (u.assign_executor e (t.branch.getD "")).set_status .inProgress now)
                (fun a => by simp) s.tasks

/-- Helper: with no new commits anywhere, a successful `Completed`
handling never touches any task's `pr_url`. -/
theorem handle_agent_completed_pr_url (s s' : AppState) (env : Env)
    (task_id : String) (now : Nat)
    (hnc : ∀ w, env.hasNewCommits w = false)
    (h : handle_agent_completed s env task_id now = .ok s') :
    s'.tasks.map Task.pr_url = s.tasks.map Task.pr_url := by
  unfold handle_agent_completed at h
  cases hf : s.tasks.find? (fun u => u.id == task_id) with
  | none => rw [hf] at h; injection h with h2; subst h2; rfl
  | some t =>
      rw [hf] at h
      dsimp only at h
      cases hst : t.status
      case planning =>
          rw [hst] at h
          dsimp only at h
          by_cases hp : plan_file_exists env.plans task_id = false
          · rw [if_pos hp] at h
            injection h with h2
            subst h2
            rfl
          · rw [if_neg hp] at h
            have h3 := start_executor_for_task_pr_url _ s' env task_id
              s.default_executor now h
            rw [h3]
            simpa using map_updateFirst Task.pr_url (fun u => u.id == task_id)
              (fun u => u.set_status .planReview now) (fun a => by simp) s.tasks
      case inProgress =>
          rw [hst] at h
          dsimp only at h
          cases hw : t.worktree with
          | none =>
              rw [hw] at h
              dsimp only at h
              injection h with h2
              subst h2
              rfl
          | some w =>
              rw [hw] at h
              dsimp only at h
              rw [hnc w] at h
              cases hch : env.hasChanges w with
              | false =>
                  rw [hch] at h
                  simp at h
                  subst h
                  rfl
              | true =>
                  rw [hch] at h
                  simp at h
                  subst h
                  simpa using map_updateFirst Task.pr_url (fun u => u.id == task_id)
                    (fun u => u.set_status .review now) (fun a => by simp) s.tasks
      all_goals (rw [hst] at h; dsimp only at h; injection h with h2; subst h2; rfl)

/-- A concrete InProgress task with executor, branch and worktree set,
used by the C6 theorems. -/
def c6task : Task :=
  { mkTask "t1" .inProgress with executor := some "claude", branch := some "hive/t1", worktree := some "w" }

/-- An environment reporting new commits and a successful push and `gh pr
create`, used by the C6 theorems. -/
def c6env : Env :=
  { plans := fun _ => none, hasNewCommits := fun _ => true,
    hasChanges := fun _ => false, pushResult := .ok (),
    ghResult := .ok "https://example.com/pr/1" }

/-- Counterexample to C6 as stated: handling a `Completed` event for an
InProgress task with new commits auto-invokes `create_pr_for_task`,
which on a successful `gh pr create` writes the returned URL into the
task's `pr_url` — so the event handler does set `pr_url`. -/
theorem C6_claim_counterexample :
    ∃ s', handle_agent_completed (mkState [c6task]) c6env "t1" 0 = .ok s' ∧
      s'.tasks.map Task.pr_url = [some "https://example.com/pr/1"] ∧
      (mkState [c6task]).tasks.map Task.pr_url = [none] := by
  refine ⟨_, rfl, ?_, ?_⟩ <;> rfl

/-- C6 (amended): the only core operation that writes `pr_url` is
`create_pr_for_task` (on a successful `gh` invocation, storing the
returned URL in the named task); the `Failed` handler never changes any
task's `pr_url`, and handling `Completed` leaves every `pr_url`
unchanged whenever no new commits are present (the PR path is then never
taken). -/
theorem C6_pr_url_amended :
    (∀ s task_id error now,
      (handle_failed s task_id error now).tasks.map Task.pr_url =
        s.tasks.map Task.pr_url) ∧
    (∀ s s' env task_id now, (∀ w, env.hasNewCommits w = false) →
      handle_agent_completed s env task_id now = .ok s' →
      s'.tasks.map Task.pr_url = s.tasks.map Task.pr_url) ∧
    (∀ s env task_id url t b wt,
      env.pushResult = .ok () → env.ghResult = .ok url →
      s.tasks.find? (fun u => u.id == task_id) = some t →
      t.branch = some b → t.worktree = some wt →
      ∃ s', create_pr_for_task s env task_id = (s', .ok url) ∧
        s'.tasks.find? (fun u => u.id == task_id) =
          some { t with pr_url := some url }) := by
  refine ⟨handle_failed_pr_url, ?_, ?_⟩
  · intro s s' env task_id now hnc h
    exact handle_agent_completed_pr_url s s' env task_id now hnc h
  · intro s env task_id url t b wt hpush hgh hf hb hw
    have hid : (t.id == task_id) = true := by simpa using List.find?_some hf
    have hpres : (({ t with pr_url := some url } : Task).id == task_id) = true := by
      simpa using hid
    have h2 := updateFirst_find? (fun u => u.id == task_id)
      (fun u => { u with pr_url := some url }) s.tasks t hf hpres
    refine ⟨{ s with
        tasks := updateFirst (fun u => u.id == task_id)
          (fun u => { u with pr_url := some url }) s.tasks,
        saved := updateFirst (fun u => u.id == task_id)
          (fun u => { u with pr_url := some url }) s.tasks :: s.saved }, ?_, ?_⟩
    · simp only [create_pr_for_task, hf, hb, hw, hpush, hgh]
    · simpa using h2

/-- Witness for C6 (amended) at concrete inputs: the `Failed` handler
keeps `pr_url` at `none`; a commit-free `Completed` handling keeps the
task list's `pr_url` projection; `create_pr_for_task` stores the `gh`
URL. -/
theorem C6_pr_url_witness :
    ((handle_failed (mkState [c6task]) "t1" "err" 0).tasks.map Task.pr_url =
      [none]) ∧
    (∃ s', handle_agent_completed (mkState [c6task]) mkEnv "t1" 0 = .ok s' ∧
      s'.tasks.map Task.pr_url = (mkState [c6task]).tasks.map Task.pr_url) ∧
    (∃ s', create_pr_for_task (mkState [c6task]) c6env "t1" =
        (s', .ok "https://example.com/pr/1") ∧
      s'.tasks.find? (fun u => u.id == "t1") =
        some { c6task with pr_url := some "https://example.com/pr/1" }) := by
  refine ⟨?_, ?_, ?_⟩
  · have h := C6_pr_url_amended.1 (mkState [c6task]) "t1" "err" 0
    rw [h]; rfl
  · exact ⟨_, rfl, C6_pr_url_amended.2.1 (mkState [c6task]) _ mkEnv "t1" 0
      (fun _ => rfl) rfl⟩
  · exact C6_pr_url_amended.2.2 (mkState [c6task]) c6env "t1"
      "https://example.com/pr/1" c6task "hive/t1" "w" rfl rfl rfl rfl rfl

end Hive
